/-
  Verification development for the IP_Guardian blob-transfer layer.

  The definitions below are a shallow embedding of the repository's
  upload/download retry logic (scripts/walrus-upload.js, the combined
  upload+verify script, the standalone download script, the library
  wrapper that shells out to the script, the HTTP download route, the
  signing-credential decoding, the CLI dispatch) and of the
  ContractService read-only query wrappers.

  External SDK calls (Walrus writeBlob/readBlob, ethers contract calls,
  subprocess execution, file I/O) are parameters of the embedded
  functions: each embedded function is given the per-call outcomes of
  the SDK operations it performs and mirrors the source's control flow
  around them.  Byte sequences are `List Nat`.
-/
import Mathlib

/-- Classification of a storage-SDK error: `retryable` models
`RetryableWalrusClientError`, `terminal` any other thrown error
(carrying its message). -/
inductive WalrusError where
  | retryable
  | terminal (msg : String)
deriving DecidableEq, Repr

def WalrusError.isRetryable : WalrusError → Bool
  | .retryable => true
  | .terminal _ => false

/-- Observable network/side-effect events emitted by the transfer code:
a `writeBlob` network attempt (1-based attempt number as printed by the
source), a `readBlob` retrieval attempt, the `getBlob` existence probe,
a `walrus.reset()` call, and a backoff sleep of the given milliseconds. -/
inductive NetEvent where
  | writeBlob (attempt : Nat)
  | readBlob (attempt : Nat)
  | getBlob
  | reset
  | delay (ms : Nat)
deriving DecidableEq, Repr

def countWrites (evs : List NetEvent) : Nat :=
  (evs.filter fun e => match e with | .writeBlob _ => true | _ => false).length

def countReads (evs : List NetEvent) : Nat :=
  (evs.filter fun e => match e with | .readBlob _ => true | _ => false).length

def countResets (evs : List NetEvent) : Nat :=
  (evs.filter fun e => match e with | .reset => true | _ => false).length

def delaysOf (evs : List NetEvent) : List Nat :=
  evs.filterMap fun e => match e with | .delay ms => some ms | _ => none

/-- `true` iff the per-attempt outcome is a retryable error. -/
def isRetryableErr {α : Type} : Except WalrusError α → Bool
  | .error e => e.isRetryable
  | .ok _ => false

/-- JavaScript's `String.prototype.startsWith`, modelled structurally
on the character sequence. -/
def strStartsWith (s p : String) : Bool := p.data.isPrefixOf s.data

/-- The upload `while (attempts < maxAttempts)` loop of
`uploadToWalrus` in scripts/walrus-upload.js (the identical loop
appears in the combined upload+verify script's `main`).
`net i` is the outcome of the `walrus.writeBlob` call made when the
`attempts` counter equals `i`.  On success the loop `break`s; on error
the counter is incremented, a retryable error triggers
`walrus.reset()`, and if attempts remain the code sleeps
`attempts * 3000` ms.  `remaining` is the fuel `maxAttempts - attempts`,
so the guard matches the source's loop condition. -/
def uploadGo (net : Nat → Except WalrusError String) (maxAttempts : Nat) :
    Nat → Nat → List NetEvent × Option String
  | _, 0 => ([], none)
  | attempts, remaining + 1 =>
    match net attempts with
    | .ok blobId => ([NetEvent.writeBlob (attempts + 1)], some blobId)
    | .error e =>
      let a' := attempts + 1
      let resetEvs := if e.isRetryable then [NetEvent.reset] else []
      let delayEvs := if a' < maxAttempts then [NetEvent.delay (a' * 3000)] else []
      let rest := uploadGo net maxAttempts a' remaining
      (NetEvent.writeBlob (attempts + 1) :: (resetEvs ++ delayEvs ++ rest.1), rest.2)

/-- `uploadToWalrus` of scripts/walrus-upload.js around its retry loop:
runs the loop with `maxAttempts = 3`, then the
`if (!result || !result.blobId) throw` check. -/
def uploadToWalrus (net : Nat → Except WalrusError String) :
    List NetEvent × Except String String :=
  let r := uploadGo net 3 0 3
  (r.1, match r.2 with
        | some blobId => .ok blobId
        | none => .error "Upload failed after all retries")

/-- The retrieval `while (retrievalAttempts < maxRetrievalAttempts)`
loop shared (up to its two constants) by the combined upload+verify
script and the standalone download script: `net i` is the outcome of
the `walrus.readBlob` call made when the counter equals `i`; a
retryable error triggers `walrus.reset()`; the backoff before the next
attempt is `retrievalAttempts * delayFactor` ms. -/
def retrievalGo (net : Nat → Except WalrusError (List Nat))
    (maxAttempts delayFactor : Nat) :
    Nat → Nat → List NetEvent × Option (List Nat)
  | _, 0 => ([], none)
  | attempts, remaining + 1 =>
    match net attempts with
    | .ok contents => ([NetEvent.readBlob (attempts + 1)], some contents)
    | .error e =>
      let a' := attempts + 1
      let resetEvs := if e.isRetryable then [NetEvent.reset] else []
      let delayEvs := if a' < maxAttempts then [NetEvent.delay (a' * delayFactor)] else []
      let rest := retrievalGo net maxAttempts delayFactor a' remaining
      (NetEvent.readBlob (attempts + 1) :: (resetEvs ++ delayEvs ++ rest.1), rest.2)

/-- The retrieval loop of the combined upload+verify script's `main`:
`maxRetrievalAttempts = 3`, backoff `retrievalAttempts * 5000` ms.
On exhaustion the script only warns ("All retrieval attempts failed,
but upload is valid"), so the result is `none` rather than an error. -/
def mainRetrieval (net : Nat → Except WalrusError (List Nat)) :
    List NetEvent × Option (List Nat) :=
  retrievalGo net 3 5000 0 3

/-- The blob id hard-coded in the standalone download script. -/
def attemptDownloadBlobId : String := "SxBnbtaYl9w90hBVRg9JTDIG_L4EtYvX0kO7WRS85Y4"

/-- `attemptDownload` of the standalone download script: a `getBlob`
existence probe (its failure is swallowed), then the retrieval loop
with `maxRetrievalAttempts = 2` and backoff `retrievalAttempts * 3000`
ms; on exhaustion it throws an error naming the blob id. -/
def attemptDownload (net : Nat → Except WalrusError (List Nat)) :
    List NetEvent × Except String (List Nat) :=
  let r := retrievalGo net 2 3000 0 2
  (NetEvent.getBlob :: r.1,
   match r.2 with
   | some contents => .ok contents
   | none => .error ("All retrieval attempts failed for blob ID: " ++ attemptDownloadBlobId))

/-- `downloadFromWalrus` of scripts/walrus-upload.js: a single
`walrus.readBlob` call with no retry loop; any error is logged and
rethrown. -/
def script_downloadFromWalrus (read : Except WalrusError (List Nat)) :
    List NetEvent × Except WalrusError (List Nat) :=
  ([NetEvent.readBlob 1], read)

/-- Store of the storage network: blob id ↦ bytes, newest first. -/
def Store := List (String × List Nat)

/-- Modelled from the spec (§6): the storage SDK's `writeBlob` on a
healthy network — it stores the exact bytes it is given and returns a
network-assigned opaque blob id. -/
def netWriteBlob (st : Store) (b : List Nat) : Store × Except WalrusError String :=
  let blobId := "walrus-blob-" ++ toString (List.length st)
  ((blobId, b) :: st, .ok blobId)

/-- Modelled from the spec (§6): the storage SDK's `readBlob` on a
healthy network — it returns the stored bytes of the requested id. -/
def netReadBlob (st : Store) (blobId : String) : Except WalrusError (List Nat) :=
  match List.lookup blobId st with
  | some b => .ok b
  | none => .error (.terminal "blob not found")

/-- The same upload retry loop of `uploadToWalrus` in
scripts/walrus-upload.js, threading an explicit network store so the
round trip can be stated: each attempt calls `wb` on the current store
with the unchanged file bytes (`new Uint8Array(fileContents)` is the
identity on the byte sequence). -/
def uploadGoSt (wb : Store → List Nat → Store × Except WalrusError String)
    (fileContents : List Nat) :
    Store → Nat → Nat → Store × Option String
  | st, _, 0 => (st, none)
  | st, attempts, remaining + 1 =>
    match wb st fileContents with
    | (st', .ok blobId) => (st', some blobId)
    | (st', .error _) => uploadGoSt wb fileContents st' (attempts + 1) remaining

/-- `uploadToWalrus` of scripts/walrus-upload.js over an explicit
network store: the 3-attempt loop followed by the
`if (!result || !result.blobId) throw` check. -/
def uploadToWalrusSt (wb : Store → List Nat → Store × Except WalrusError String)
    (fileContents : List Nat) (st : Store) : Store × Except String String :=
  let r := uploadGoSt wb fileContents st 0 3
  (r.1, match r.2 with
        | some blobId => .ok blobId
        | none => .error "Upload failed after all retries")

/-- `downloadFromWalrus` of scripts/walrus-upload.js over an explicit
network store: a single `readBlob`, whose bytes are returned unchanged. -/
def downloadFromWalrusSt (rb : Store → String → Except WalrusError (List Nat))
    (st : Store) (blobId : String) : Except WalrusError (List Nat) :=
  rb st blobId

/-- `uploadToWalrus` of the library wrapper (walrus service): writes a
temp file, shells out to `scripts/walrus-upload.js upload`, and scans
stdout for the line of the form `Blob ID: <id>`.  `execScript` is the
subprocess outcome: the network events it performed and either its
stdout lines or an execution error.  Any failure — subprocess error or
missing `Blob ID:` line — is caught and replaced by the mock blob id
built from `Date.now()` (`now`) and the random suffix (`rand`). -/
def lib_uploadToWalrus
    (execScript : String → List NetEvent × Except String (List String))
    (tempFile now rand : String) : List NetEvent × String :=
  let r := execScript ("node scripts/walrus-upload.js upload " ++ tempFile)
  match r.2 with
  | .error _ => (r.1, "mock-blob-" ++ now ++ "-" ++ rand)
  | .ok lines =>
    match lines.find? (fun l => strStartsWith l "Blob ID:") with
    | none => (r.1, "mock-blob-" ++ now ++ "-" ++ rand)
    | some line => (r.1, (line.replace "Blob ID:" "").trim)

/-- `downloadFromWalrus` of the library wrapper: rejects mock blob ids
before doing anything else, otherwise shells out to
`scripts/walrus-upload.js download`, scans stdout for the
`File saved to: <path>` line and reads that file (`readFile`); every
error is rethrown (no mock fallback). -/
def lib_downloadFromWalrus (blobId : String)
    (execScript : String → List NetEvent × Except String (List String))
    (readFile : String → Except String (List Nat)) :
    List NetEvent × Except String (List Nat) :=
  if strStartsWith blobId "mock-blob-" then
    ([], .error "Cannot download mock blob ID")
  else
    let r := execScript ("node scripts/walrus-upload.js download " ++ blobId)
    match r.2 with
    | .error e => (r.1, .error e)
    | .ok lines =>
      match lines.find? (fun l => strStartsWith l "File saved to:") with
      | none => (r.1, .error "Could not find downloaded file path")
      | some line =>
        match readFile ((line.replace "File saved to:" "").trim) with
        | .ok contents => (r.1, .ok contents)
        | .error e => (r.1, .error e)

/-- Response of the HTTP download route: status plus the headers and
bodies the route sets. -/
structure HttpResponse where
  status : Nat
  contentType : Option String := none
  contentDisposition : Option String := none
  contentLength : Option String := none
  jsonError : Option String := none
  bodyBytes : Option (List Nat) := none
deriving DecidableEq, Repr

/-- `GET` of app/api/download/[blobId]/route.ts: 400 when the `blobId`
param is absent (JS-falsy: missing or empty), 404 when it is a mock
identifier (checked before any download), otherwise it awaits the
library `downloadFromWalrus` and returns 500 on failure or the raw
bytes with octet-stream content type and an attachment
`Content-Disposition` named `file-<blobId>` on success. -/
def route_GET (blobId : Option String)
    (execScript : String → List NetEvent × Except String (List String))
    (readFile : String → Except String (List Nat)) :
    List NetEvent × HttpResponse :=
  match blobId with
  | none => ([], { status := 400, jsonError := some "Blob ID is required" })
  | some b =>
    if b = "" then ([], { status := 400, jsonError := some "Blob ID is required" })
    else if strStartsWith b "mock-blob-" then
      ([], { status := 404, jsonError := some "Mock blob ID - file not available for download" })
    else
      let r := lib_downloadFromWalrus b execScript readFile
      match r.2 with
      | .error _ => (r.1, { status := 500, jsonError := some "Failed to download file" })
      | .ok fileContents =>
        (r.1, { status := 200,
                contentType := some "application/octet-stream",
                contentDisposition := some ("attachment; filename=\"file-" ++ b ++ "\""),
                contentLength := some (toString (List.length fileContents)),
                bodyBytes := some fileContents })

/-- Abstract view of a `SUI_SECRET_KEY` string for the keypair-creation
logic of scripts/walrus-upload.js: the outcome of each decoder the code
may apply to it.  `suiDecode` is `decodeSuiPrivateKey` (`none` = it
throws); `startsWith0x` is `secretKey.startsWith('0x')`; `hexBody` is
`Buffer.from(secretKey.slice(2), 'hex')`; `base64Bytes` is
`Buffer.from(secretKey, 'base64')` (in Node this never throws). -/
structure SecretKeyInput where
  suiDecode : Option (List Nat)
  startsWith0x : Bool
  hexBody : List Nat
  base64Bytes : List Nat
deriving DecidableEq, Repr

/-- The fallback branch of the keypair-creation `catch`: a key starting
with `0x` is decoded as hex and must be exactly 32 bytes; otherwise the
key is decoded as base64 (Node's base64 decoding never throws, so the
nested hex retry is unreachable) and must be exactly 32 bytes. -/
def fallbackDecode (s : SecretKeyInput) : Except String (List Nat) :=
  if s.startsWith0x then
    if s.hexBody.length = 32 then .ok s.hexBody
    else .error ("Invalid private key length: " ++ toString s.hexBody.length ++ ", expected 32")
  else
    if s.base64Bytes.length = 32 then .ok s.base64Bytes
    else .error ("Invalid private key length: " ++ toString s.base64Bytes.length ++ ", expected 32")

/-- The keypair-creation logic of scripts/walrus-upload.js: first try
`decodeSuiPrivateKey` and accept its result only when it is exactly 32
bytes — the length-check `throw` sits inside the inner `try`, so a
Sui-decoded key of any other length falls through to the same fallback
as a failed Sui decode.  The result is the raw 32-byte secret key
handed to `Ed25519Keypair.fromSecretKey`; an error reaches the outer
`catch`, which prints it and exits. -/
def parseSecretKey (s : SecretKeyInput) : Except String (List Nat) :=
  match s.suiDecode with
  | some decoded => if decoded.length = 32 then .ok decoded else fallbackDecode s
  | none => fallbackDecode s

/-- JS truthiness of the optional CLI argument `process.argv[3]`:
present and non-empty. -/
def argTruthy : Option String → Bool
  | none => false
  | some s => s ≠ ""

def usageLines : List String :=
  ["Usage:",
   "  node walrus-upload.js upload <file-path>",
   "  node walrus-upload.js download <blob-id>"]

/-- The command dispatch at the bottom of scripts/walrus-upload.js.
`upload`/`download` are the outcomes of `uploadToWalrus(arg)` /
`downloadFromWalrus(arg)`; `dirname` is the script directory used to
build the download output path.  Returns the process exit code and the
dispatcher's printed lines: `upload <file>` exits 0 printing
`Blob ID: <id>`, `download <id>` saves `downloaded-<id>.bin` and exits
0 printing `File saved to: <path>`, every failure — including a missing
or unrecognized subcommand — exits 1. -/
def cliMain (command arg : Option String)
    (upload : String → Except String String)
    (download : String → Except String (List Nat))
    (dirname : String) : Nat × List String :=
  if command = some "upload" ∧ argTruthy arg then
    match upload (arg.getD "") with
    | .ok blobId => (0, ["Upload completed successfully!", "Blob ID: " ++ blobId])
    | .error e => (1, ["Upload failed: " ++ e])
  else if command = some "download" ∧ argTruthy arg then
    match download (arg.getD "") with
    | .ok _ =>
      let outputPath := dirname ++ "/downloaded-" ++ arg.getD "" ++ ".bin"
      (0, ["Download completed successfully!", "File saved to: " ++ outputPath])
    | .error e => (1, ["Download failed: " ++ e])
  else (1, usageLines)

namespace ContractService

/-- An IP item as returned to callers of `ContractService` (the
`IPItem` interface of the contract module). -/
structure IPItem where
  itemId : Nat
  title : String
  description : String
  blobId : String
  owner : String
  price : String
  rentalPrice : String
  isActive : Bool
  createdAt : Nat
  totalRentals : Nat
  totalRevenue : String
deriving DecidableEq, Repr

/-- An item struct as returned by the contract call, before the field
conversions (`Number(...)` on the bigint fields, `.toString()` on the
wei amounts). -/
structure RawItem where
  itemId : Nat
  title : String
  description : String
  blobId : String
  owner : String
  price : Nat
  rentalPrice : Nat
  isActive : Bool
  createdAt : Nat
  totalRentals : Nat
  totalRevenue : Nat
deriving DecidableEq, Repr

/-- The per-item mapping in `getActiveItems`: `Number` on ids and
counters, `.toString()` on wei amounts. -/
def mapItem (item : RawItem) : IPItem :=
  { itemId := item.itemId
    title := item.title
    description := item.description
    blobId := item.blobId
    owner := item.owner
    price := toString item.price
    rentalPrice := toString item.rentalPrice
    isActive := item.isActive
    createdAt := item.createdAt
    totalRentals := item.totalRentals
    totalRevenue := toString item.totalRevenue }

/-- `getActiveItems`: maps the contract result, returning `[]` on any
contract error (the `catch` branch). -/
def getActiveItems (call : Except String (List RawItem)) : List IPItem :=
  match call with
  | .ok items => items.map mapItem
  | .error _ => []

/-- `getUserItems`: `Number` over the returned ids, `[]` on error. -/
def getUserItems (call : Except String (List Nat)) : List Nat :=
  match call with
  | .ok itemIds => itemIds
  | .error _ => []

/-- `getUserRentals`: `Number` over the returned ids, `[]` on error. -/
def getUserRentals (call : Except String (List Nat)) : List Nat :=
  match call with
  | .ok rentalIds => rentalIds
  | .error _ => []

/-- `hasActiveRental`: the contract's boolean, `false` on error. -/
def hasActiveRental (call : Except String Bool) : Bool :=
  match call with
  | .ok result => result
  | .error _ => false

/-- `getTotalItems`: `Number(total)`, `0` on error. -/
def getTotalItems (call : Except String Nat) : Nat :=
  match call with
  | .ok total => total
  | .error _ => 0

/-- `getTotalRentals`: `Number(total)`, `0` on error. -/
def getTotalRentals (call : Except String Nat) : Nat :=
  match call with
  | .ok total => total
  | .error _ => 0

end ContractService

/-- Claim C1, counterexample: with a non-retryable (terminal) error on
the first upload attempt and a success available on the second, the
upload loop of scripts/walrus-upload.js still issues a second network
attempt and succeeds — the catch block swallows every error, so a
non-retryable error does not abort the retry loop as the claim states. -/
theorem claim_C1_counterexample :
    (fun i => if i = 0 then Except.error (WalrusError.terminal "boom")
              else Except.ok "B") 0 = Except.error (WalrusError.terminal "boom") ∧
    NetEvent.writeBlob 2 ∈
      (uploadToWalrus (fun i => if i = 0 then Except.error (WalrusError.terminal "boom")
                                else Except.ok "B")).1 ∧
    (uploadToWalrus (fun i => if i = 0 then Except.error (WalrusError.terminal "boom")
                              else Except.ok "B")).2 = Except.ok "B" :=
  ⟨rfl, by decide, rfl⟩

/-- Claim C1, amended: in the upload retry loop a retryable error
resets the client before the next attempt and a non-retryable error
does not — but no error aborts the loop: the number of network attempts
depends only on which attempts succeed (1 on first success, else 2 on
second success, else 3), and the resets are exactly the retryable
errors among the attempts actually issued. -/
theorem claim_C1_amended (net : Nat → Except WalrusError String) :
    countWrites (uploadToWalrus net).1 =
      (if (net 0).isOk then 1 else if (net 1).isOk then 2 else 3) ∧
    countResets (uploadToWalrus net).1 =
      ((List.range (countWrites (uploadToWalrus net).1)).filter
        (fun i => isRetryableErr (net i))).length := by
  rcases h0 : net 0 with e0 | b0
  · rcases h1 : net 1 with e1 | b1
    · rcases h2 : net 2 with e2 | b2
      · rcases e0 with _ | m0 <;> rcases e1 with _ | m1 <;> rcases e2 with _ | m2 <;>
          simp [uploadToWalrus, uploadGo, h0, h1, h2, countWrites, countResets,
            isRetryableErr, WalrusError.isRetryable, Except.isOk, Except.toBool,
            List.range_succ]
      · rcases e0 with _ | m0 <;> rcases e1 with _ | m1 <;>
          simp [uploadToWalrus, uploadGo, h0, h1, h2, countWrites, countResets,
            isRetryableErr, WalrusError.isRetryable, Except.isOk, Except.toBool,
            List.range_succ]
    · rcases e0 with _ | m0 <;>
        simp [uploadToWalrus, uploadGo, h0, h1, countWrites, countResets,
          isRetryableErr, WalrusError.isRetryable, Except.isOk, Except.toBool,
          List.range_succ]
  · simp [uploadToWalrus, uploadGo, h0, countWrites, countResets, isRetryableErr,
      Except.isOk, Except.toBool, List.range_succ]

/-- Claim C4: the upload operation issues at most 3 network write
attempts for every pattern of per-attempt outcomes, the backoff waits
are exactly the prefix of [3000 ms, 6000 ms] matching the number of
failed attempts that were followed by another attempt, and even 3
consecutive retryable errors produce exactly 3 attempts (never a 4th)
with waits of 3 s and 6 s. -/
theorem claim_C4_upload_attempt_bound (net : Nat → Except WalrusError String) :
    countWrites (uploadToWalrus net).1 ≤ 3 ∧
    delaysOf (uploadToWalrus net).1 =
      List.take (countWrites (uploadToWalrus net).1 - 1) [3000, 6000] ∧
    countWrites (uploadToWalrus (fun _ => Except.error WalrusError.retryable)).1 = 3 ∧
    delaysOf (uploadToWalrus (fun _ => Except.error WalrusError.retryable)).1 =
      [3000, 6000] := by
  refine ⟨?_, ?_, by decide, by decide⟩ <;>
  · rcases h0 : net 0 with e0 | b0
    · rcases h1 : net 1 with e1 | b1
      · rcases h2 : net 2 with e2 | b2
        · rcases e0 with _ | m0 <;> rcases e1 with _ | m1 <;> rcases e2 with _ | m2 <;>
            simp [uploadToWalrus, uploadGo, h0, h1, h2, countWrites, delaysOf,
              WalrusError.isRetryable]
        · rcases e0 with _ | m0 <;> rcases e1 with _ | m1 <;>
            simp [uploadToWalrus, uploadGo, h0, h1, h2, countWrites, delaysOf,
              WalrusError.isRetryable]
      · rcases e0 with _ | m0 <;>
          simp [uploadToWalrus, uploadGo, h0, h1, countWrites, delaysOf,
            WalrusError.isRetryable]
    · simp [uploadToWalrus, uploadGo, h0, countWrites, delaysOf]

/-- Claim C2, counterexample: with every retrieval attempt failing
retryably, the standalone retrieval path (`attemptDownload`) issues
only 2 read attempts — not 3 — and its single backoff wait is 3000 ms —
not 5000 ms; so the claimed "3 attempts everywhere, 5000 ms factor in
the standalone path" is false on the code. -/
theorem claim_C2_counterexample :
    ¬(countReads (attemptDownload (fun _ => Except.error WalrusError.retryable)).1 = 3 ∧
      delaysOf (attemptDownload (fun _ => Except.error WalrusError.retryable)).1 =
        [5000, 10000]) ∧
    countReads (attemptDownload (fun _ => Except.error WalrusError.retryable)).1 = 2 ∧
    delaysOf (attemptDownload (fun _ => Except.error WalrusError.retryable)).1 =
      [3000] := by
  decide

/-- Claim C2, amended: the three download paths differ. The combined
upload+verify script retries retrieval up to 3 times with backoff
waits drawn from [5000 ms, 10000 ms]; the standalone retrieval script
retries up to 2 times with backoff waits drawn from [3000 ms]; the CLI
script's `downloadFromWalrus` performs exactly one read attempt with no
backoff; in both retry loops the resets are exactly the retryable
errors among the attempts actually issued. -/
theorem claim_C2_amended (rnet : Nat → Except WalrusError (List Nat))
    (read : Except WalrusError (List Nat)) :
    (countReads (mainRetrieval rnet).1 ≤ 3 ∧
     delaysOf (mainRetrieval rnet).1 =
       List.take (countReads (mainRetrieval rnet).1 - 1) [5000, 10000] ∧
     countResets (mainRetrieval rnet).1 =
       ((List.range (countReads (mainRetrieval rnet).1)).filter
         (fun i => isRetryableErr (rnet i))).length) ∧
    (countReads (attemptDownload rnet).1 ≤ 2 ∧
     delaysOf (attemptDownload rnet).1 =
       List.take (countReads (attemptDownload rnet).1 - 1) [3000] ∧
     countResets (attemptDownload rnet).1 =
       ((List.range (countReads (attemptDownload rnet).1)).filter
         (fun i => isRetryableErr (rnet i))).length) ∧
    countReads (script_downloadFromWalrus read).1 = 1 ∧
    delaysOf (script_downloadFromWalrus read).1 = [] := by
  refine ⟨?_, ?_, by simp [script_downloadFromWalrus, countReads, delaysOf]⟩ <;>
  · rcases h0 : rnet 0 with e0 | b0
    · rcases h1 : rnet 1 with e1 | b1
      · rcases h2 : rnet 2 with e2 | b2
        · rcases e0 with _ | m0 <;> rcases e1 with _ | m1 <;> rcases e2 with _ | m2 <;>
            simp [mainRetrieval, attemptDownload, retrievalGo, h0, h1, h2,
              countReads, countResets, delaysOf, isRetryableErr,
              WalrusError.isRetryable, List.range_succ]
        · rcases e0 with _ | m0 <;> rcases e1 with _ | m1 <;>
            simp [mainRetrieval, attemptDownload, retrievalGo, h0, h1, h2,
              countReads, countResets, delaysOf, isRetryableErr,
              WalrusError.isRetryable, List.range_succ]
      · rcases e0 with _ | m0 <;>
          simp [mainRetrieval, attemptDownload, retrievalGo, h0, h1,
            countReads, countResets, delaysOf, isRetryableErr,
            WalrusError.isRetryable, List.range_succ]
    · simp [mainRetrieval, attemptDownload, retrievalGo, h0, countReads,
        countResets, delaysOf, isRetryableErr, List.range_succ]

/-- Claim C3: for every blob id with the fixed "mock-blob-" prefix,
the library `downloadFromWalrus` fails immediately with the distinct
"Cannot download mock blob ID" error and performs no network call
(empty event trace, no subprocess run), and the HTTP
`GET /download/{blobId}` route answers 404 with its explanatory body
and likewise performs no network call — whatever the subprocess and
file-system outcomes would have been. -/
theorem claim_C3_mock_short_circuit (blobId : String)
    (execScript : String → List NetEvent × Except String (List String))
    (readFile : String → Except String (List Nat))
    (h : strStartsWith blobId "mock-blob-" = true) :
    lib_downloadFromWalrus blobId execScript readFile =
      ([], Except.error "Cannot download mock blob ID") ∧
    route_GET (some blobId) execScript readFile =
      ([], { status := 404,
             jsonError := some "Mock blob ID - file not available for download" }) := by
  have hne : blobId ≠ "" := by
    intro he
    rw [he] at h
    exact absurd h (by decide)
  constructor
  · simp [lib_downloadFromWalrus, h]
  · simp [route_GET, hne, h]

/-- Claim C3, witness at the concrete mock id "mock-blob-123". -/
theorem claim_C3_mock_short_circuit_witness :
    lib_downloadFromWalrus "mock-blob-123"
        (fun _ => ([NetEvent.readBlob 1], Except.ok ["File saved to: f.bin"]))
        (fun _ => Except.ok [7]) =
      ([], Except.error "Cannot download mock blob ID") ∧
    route_GET (some "mock-blob-123")
        (fun _ => ([NetEvent.readBlob 1], Except.ok ["File saved to: f.bin"]))
        (fun _ => Except.ok [7]) =
      ([], { status := 404,
             jsonError := some "Mock blob ID - file not available for download" }) :=
  claim_C3_mock_short_circuit "mock-blob-123"
    (fun _ => ([NetEvent.readBlob 1], Except.ok ["File saved to: f.bin"]))
    (fun _ => Except.ok [7]) (by decide)

/-- A list is a prefix of itself followed by anything; stated for the
string form used by the mock-identifier pattern. -/
theorem strStartsWith_append (p s : String) : strStartsWith (p ++ s) p = true := by
  have h : ∀ (l t : List Char), l.isPrefixOf (l ++ t) = true := by
    intro l t
    induction l with
    | nil => simp [List.isPrefixOf]
    | cons a l ih => simp [List.isPrefixOf, ih]
  simp [strStartsWith, String.data_append, h]

/-- The fallback identifier built by the library upload wrapper always
matches the fixed mock pattern. -/
theorem mockBlobId_startsWith (now rand : String) :
    strStartsWith ("mock-blob-" ++ now ++ "-" ++ rand) "mock-blob-" = true := by
  have he : "mock-blob-" ++ now ++ "-" ++ rand
      = "mock-blob-" ++ (now ++ ("-" ++ rand)) := by
    simp [String.append_assoc]
  rw [he]
  exact strStartsWith_append _ _

/-- Claim C5: failure handling is asymmetric. When the library upload
wrapper fails — the subprocess errors, or its stdout has no `Blob ID:`
line — it returns a mock identifier matching the fixed "mock-blob-"
prefix pattern instead of an error; when the standalone download loop
exhausts its attempts it propagates the hard error carrying the blob
id and never substitutes a mock result. -/
theorem claim_C5_asymmetric_failure_policy
    (execScript : String → List NetEvent × Except String (List String))
    (tempFile now rand : String)
    (rnet : Nat → Except WalrusError (List Nat)) :
    ((∃ e, (execScript ("node scripts/walrus-upload.js upload " ++ tempFile)).2 =
        Except.error e) →
      strStartsWith (lib_uploadToWalrus execScript tempFile now rand).2 "mock-blob-" = true) ∧
    (∀ lines,
      (execScript ("node scripts/walrus-upload.js upload " ++ tempFile)).2 =
        Except.ok lines →
      lines.find? (fun l => strStartsWith l "Blob ID:") = none →
      strStartsWith (lib_uploadToWalrus execScript tempFile now rand).2 "mock-blob-" = true) ∧
    ((rnet 0).isOk = false → (rnet 1).isOk = false →
      (attemptDownload rnet).2 =
        Except.error ("All retrieval attempts failed for blob ID: " ++
          attemptDownloadBlobId)) := by
  refine ⟨?_, ?_, ?_⟩
  · rintro ⟨e, he⟩
    simp [lib_uploadToWalrus, he, mockBlobId_startsWith]
  · intro lines hok hfind
    simp [lib_uploadToWalrus, hok, hfind, mockBlobId_startsWith]
  · intro h0 h1
    rcases e0 : rnet 0 with err0 | b0
    · rcases e1 : rnet 1 with err1 | b1
      · simp [attemptDownload, retrievalGo, e0, e1]
      · rw [e1] at h1
        exact absurd h1 (by simp [Except.isOk, Except.toBool])
    · rw [e0] at h0
      exact absurd h0 (by simp [Except.isOk, Except.toBool])

/-- Claim C5, witness: a failing subprocess makes the upload wrapper
return a mock-prefixed id, and a twice-failing retrieval makes the
standalone download loop return the hard error naming the blob id. -/
theorem claim_C5_asymmetric_failure_policy_witness :
    strStartsWith
      (lib_uploadToWalrus (fun _ => ([], Except.error "exec failed")) "t" "1" "r").2
      "mock-blob-" = true ∧
    (attemptDownload (fun _ => Except.error (WalrusError.terminal "down"))).2 =
      Except.error ("All retrieval attempts failed for blob ID: " ++
        attemptDownloadBlobId) :=
  ⟨(claim_C5_asymmetric_failure_policy (fun _ => ([], Except.error "exec failed"))
      "t" "1" "r" (fun _ => Except.error (WalrusError.terminal "down"))).1
      ⟨"exec failed", rfl⟩,
   (claim_C5_asymmetric_failure_policy (fun _ => ([], Except.error "exec failed"))
      "t" "1" "r" (fun _ => Except.error (WalrusError.terminal "down"))).2.2 rfl rfl⟩

/-- Claim C6: the `GET /download/{blobId}` route returns 400 when the
blob id is absent (missing or empty param), 404 when it is a mock
identifier, 500 when the underlying retrieval fails for any other
reason, and on success 200 with the raw bytes,
`Content-Type: application/octet-stream` and a `Content-Disposition`
attachment header whose filename `file-<blobId>` is derived from the
blob id. -/
theorem claim_C6_route_status_codes (b : String)
    (execScript : String → List NetEvent × Except String (List String))
    (readFile : String → Except String (List Nat)) :
    route_GET none execScript readFile =
      ([], { status := 400, jsonError := some "Blob ID is required" }) ∧
    route_GET (some "") execScript readFile =
      ([], { status := 400, jsonError := some "Blob ID is required" }) ∧
    (strStartsWith b "mock-blob-" = true →
      (route_GET (some b) execScript readFile).2 =
        { status := 404,
          jsonError := some "Mock blob ID - file not available for download" }) ∧
    (b ≠ "" → strStartsWith b "mock-blob-" = false →
      (∀ e, (lib_downloadFromWalrus b execScript readFile).2 = Except.error e →
        (route_GET (some b) execScript readFile).2 =
          { status := 500, jsonError := some "Failed to download file" }) ∧
      (∀ fileContents,
        (lib_downloadFromWalrus b execScript readFile).2 = Except.ok fileContents →
        (route_GET (some b) execScript readFile).2 =
          { status := 200,
            contentType := some "application/octet-stream",
            contentDisposition := some ("attachment; filename=\"file-" ++ b ++ "\""),
            contentLength := some (toString (List.length fileContents)),
            bodyBytes := some fileContents })) := by
  refine ⟨by simp [route_GET], by simp [route_GET], ?_, ?_⟩
  · intro hmock
    have hne : b ≠ "" := by
      intro he
      rw [he] at hmock
      exact absurd hmock (by decide)
    simp [route_GET, hne, hmock]
  · intro hne hmock
    constructor
    · intro e hdl
      simp [route_GET, hne, hmock, hdl]
    · intro fileContents hdl
      simp [route_GET, hne, hmock, hdl]

/-- Claim C6, witness: the four route outcomes at concrete inputs —
absent and empty ids give 400, "mock-blob-1" gives 404, a real id with
a failing subprocess gives 500, and a real id whose subprocess reports
a saved file that reads as [1, 2, 3] gives 200 with the
octet-stream/attachment headers and those bytes. -/
theorem claim_C6_route_status_codes_witness :
    (route_GET (some "mock-blob-1") (fun _ => ([], Except.error "boom"))
        (fun _ => Except.ok [1, 2, 3])).2 =
      { status := 404,
        jsonError := some "Mock blob ID - file not available for download" } ∧
    (route_GET (some "realblob") (fun _ => ([], Except.error "boom"))
        (fun _ => Except.ok [1, 2, 3])).2 =
      { status := 500, jsonError := some "Failed to download file" } ∧
    (route_GET (some "realblob")
        (fun _ => ([NetEvent.readBlob 1], Except.ok ["File saved to: out.bin"]))
        (fun _ => Except.ok [1, 2, 3])).2 =
      { status := 200,
        contentType := some "application/octet-stream",
        contentDisposition := some "attachment; filename=\"file-realblob\"",
        contentLength := some "3",
        bodyBytes := some [1, 2, 3] } :=
  ⟨(claim_C6_route_status_codes "mock-blob-1" (fun _ => ([], Except.error "boom"))
      (fun _ => Except.ok [1, 2, 3])).2.2.1 (by decide),
   ((claim_C6_route_status_codes "realblob" (fun _ => ([], Except.error "boom"))
      (fun _ => Except.ok [1, 2, 3])).2.2.2 (by decide) (by decide)).1 "boom" rfl,
   ((claim_C6_route_status_codes "realblob"
      (fun _ => ([NetEvent.readBlob 1], Except.ok ["File saved to: out.bin"]))
      (fun _ => Except.ok [1, 2, 3])).2.2.2 (by decide) (by decide)).2 [1, 2, 3] rfl⟩

/-- Helper: the fallback decoder only ever accepts a 32-byte key. -/
theorem fallbackDecode_ok_length (s : SecretKeyInput) (k : List Nat)
    (h : fallbackDecode s = Except.ok k) : k.length = 32 := by
  unfold fallbackDecode at h
  split_ifs at h <;> simp_all

/-- Claim C7: credential decoding tries the Sui-native format first,
then (for `0x`-prefixed input) hex, then base64; a 32-byte key in any
of the three forms yields exactly those raw bytes; every accepted key
is exactly 32 bytes long (so a 31- or 33-byte decode is rejected); and
when no decoder yields 32 bytes the result is an error. -/
theorem claim_C7_secret_key_decoding (s : SecretKeyInput) (k : List Nat) :
    (s.suiDecode = some k → k.length = 32 → parseSecretKey s = Except.ok k) ∧
    ((s.suiDecode = none ∨ ∃ d, s.suiDecode = some d ∧ d.length ≠ 32) →
      s.startsWith0x = true → s.hexBody = k → k.length = 32 →
      parseSecretKey s = Except.ok k) ∧
    ((s.suiDecode = none ∨ ∃ d, s.suiDecode = some d ∧ d.length ≠ 32) →
      s.startsWith0x = false → s.base64Bytes = k → k.length = 32 →
      parseSecretKey s = Except.ok k) ∧
    (∀ k', parseSecretKey s = Except.ok k' → k'.length = 32) ∧
    ((s.suiDecode = none ∨ ∃ d, s.suiDecode = some d ∧ d.length ≠ 32) →
      s.hexBody.length ≠ 32 → s.base64Bytes.length ≠ 32 →
      ∃ msg, parseSecretKey s = Except.error msg) := by
  refine ⟨?_, ?_, ?_, ?_, ?_⟩
  · intro hsui hlen
    simp [parseSecretKey, hsui, hlen]
  · rintro (hn | ⟨d, hd, hdl⟩) h0x hhex hlen
    · subst hhex
      simp [parseSecretKey, fallbackDecode, hn, h0x, hlen]
    · subst hhex
      simp [parseSecretKey, fallbackDecode, hd, hdl, h0x, hlen]
  · rintro (hn | ⟨d, hd, hdl⟩) h0x hb64 hlen
    · subst hb64
      simp [parseSecretKey, fallbackDecode, hn, h0x, hlen]
    · subst hb64
      simp [parseSecretKey, fallbackDecode, hd, hdl, h0x, hlen]
  · intro k' h
    unfold parseSecretKey at h
    rcases hsd : s.suiDecode with _ | d
    · rw [hsd] at h
      exact fallbackDecode_ok_length s k' h
    · rw [hsd] at h
      by_cases hdl : d.length = 32
      · simp [hdl] at h
        rw [← h]
        exact hdl
      · simp [hdl] at h
        exact fallbackDecode_ok_length s k' h
  · rintro (hn | ⟨d, hd, hdl⟩) hhex hb64
    · rcases h0x : s.startsWith0x with _ | _
      · exact ⟨"Invalid private key length: " ++ toString s.base64Bytes.length ++
          ", expected 32", by simp [parseSecretKey, fallbackDecode, hn, h0x, hb64]⟩
      · exact ⟨"Invalid private key length: " ++ toString s.hexBody.length ++
          ", expected 32", by simp [parseSecretKey, fallbackDecode, hn, h0x, hhex]⟩
    · rcases h0x : s.startsWith0x with _ | _
      · exact ⟨"Invalid private key length: " ++ toString s.base64Bytes.length ++
          ", expected 32", by simp [parseSecretKey, fallbackDecode, hd, hdl, h0x, hb64]⟩
      · exact ⟨"Invalid private key length: " ++ toString s.hexBody.length ++
          ", expected 32", by simp [parseSecretKey, fallbackDecode, hd, hdl, h0x, hhex]⟩

/-- Claim C7, witness: the same 32-byte key supplied in Sui-native,
hex and base64 form decodes to the same raw bytes in each case, and an
input whose Sui decode has 31 bytes and whose base64 decode has 33
bytes is rejected with an error. -/
theorem claim_C7_secret_key_decoding_witness :
    parseSecretKey ⟨some (List.replicate 32 1), false, [], []⟩ =
      Except.ok (List.replicate 32 1) ∧
    parseSecretKey ⟨none, true, List.replicate 32 1, []⟩ =
      Except.ok (List.replicate 32 1) ∧
    parseSecretKey ⟨none, false, [], List.replicate 32 1⟩ =
      Except.ok (List.replicate 32 1) ∧
    (∃ msg, parseSecretKey ⟨some (List.replicate 31 1), false, [], List.replicate 33 2⟩ =
      Except.error msg) :=
  ⟨(claim_C7_secret_key_decoding ⟨some (List.replicate 32 1), false, [], []⟩
      (List.replicate 32 1)).1 rfl (by decide),
   (claim_C7_secret_key_decoding ⟨none, true, List.replicate 32 1, []⟩
      (List.replicate 32 1)).2.1 (Or.inl rfl) rfl rfl (by decide),
   (claim_C7_secret_key_decoding ⟨none, false, [], List.replicate 32 1⟩
      (List.replicate 32 1)).2.2.1 (Or.inl rfl) rfl rfl (by decide),
   (claim_C7_secret_key_decoding ⟨some (List.replicate 31 1), false, [], List.replicate 33 2⟩
      []).2.2.2.2 (Or.inr ⟨List.replicate 31 1, rfl, by decide⟩) (by decide) (by decide)⟩

/-- Claim C8: for every byte sequence `B`, on a healthy storage network
(writes succeed and return a blob id under which the written bytes are
stored, reads return the stored bytes) the CLI script's upload followed
by its download returns exactly `B` — the transfer layer passes the
bytes through unchanged in both directions, for any prior network
contents. -/
theorem claim_C8_round_trip (B : List Nat) (st : Store) :
    ∃ blobId,
      (uploadToWalrusSt netWriteBlob B st).2 = Except.ok blobId ∧
      downloadFromWalrusSt netReadBlob (uploadToWalrusSt netWriteBlob B st).1 blobId =
        Except.ok B := by
  refine ⟨"walrus-blob-" ++ toString (List.length st), ?_, ?_⟩ <;>
    simp [uploadToWalrusSt, uploadGoSt, netWriteBlob, downloadFromWalrusSt,
      netReadBlob, List.lookup]

/-- Claim C9: the CLI accepts exactly the two subcommands
`upload <file-path>` and `download <blob-id>`. A successful upload
exits 0 printing the line `Blob ID: <id>`; a successful download exits
0 printing the line `File saved to: <path>`; a failed upload or
download exits 1; and any other invocation — missing argument, missing
or unrecognized subcommand — exits 1. -/
theorem claim_C9_cli_dispatch (command arg : Option String)
    (upload : String → Except String String)
    (download : String → Except String (List Nat))
    (dirname : String) :
    (∀ a blobId, command = some "upload" → arg = some a → a ≠ "" →
      upload a = Except.ok blobId →
      cliMain command arg upload download dirname =
        (0, ["Upload completed successfully!", "Blob ID: " ++ blobId])) ∧
    (∀ a e, command = some "upload" → arg = some a → a ≠ "" →
      upload a = Except.error e →
      (cliMain command arg upload download dirname).1 = 1) ∧
    (∀ a fileContents, command = some "download" → arg = some a → a ≠ "" →
      download a = Except.ok fileContents →
      cliMain command arg upload download dirname =
        (0, ["Download completed successfully!",
             "File saved to: " ++ (dirname ++ "/downloaded-" ++ a ++ ".bin")])) ∧
    (∀ a e, command = some "download" → arg = some a → a ≠ "" →
      download a = Except.error e →
      (cliMain command arg upload download dirname).1 = 1) ∧
    (command ≠ some "upload" → command ≠ some "download" →
      (cliMain command arg upload download dirname).1 = 1) ∧
    (arg = none ∨ arg = some "" →
      (cliMain command arg upload download dirname).1 = 1) := by
  refine ⟨?_, ?_, ?_, ?_, ?_, ?_⟩
  · intro a blobId hc ha hne hup
    subst hc; subst ha
    simp [cliMain, argTruthy, hne, hup]
  · intro a e hc ha hne hup
    subst hc; subst ha
    simp [cliMain, argTruthy, hne, hup]
  · intro a fileContents hc ha hne hdl
    subst hc; subst ha
    simp [cliMain, argTruthy, hne, hdl]
  · intro a e hc ha hne hdl
    subst hc; subst ha
    simp [cliMain, argTruthy, hne, hdl]
  · intro hu hd
    simp [cliMain, hu, hd]
  · rintro (ha | ha) <;> subst ha <;> simp [cliMain, argTruthy]

/-- Claim C9, witness: concrete invocations — a successful upload
prints `Blob ID: abc` and exits 0, a successful download prints the
saved path and exits 0, failing operations exit 1, and an unrecognized
subcommand and missing argument exit 1. -/
theorem claim_C9_cli_dispatch_witness :
    cliMain (some "upload") (some "f.bin") (fun _ => Except.ok "abc")
        (fun _ => Except.ok [1]) "/s" =
      (0, ["Upload completed successfully!", "Blob ID: abc"]) ∧
    (cliMain (some "upload") (some "f.bin") (fun _ => Except.error "e")
        (fun _ => Except.ok [1]) "/s").1 = 1 ∧
    cliMain (some "download") (some "abc") (fun _ => Except.ok "abc")
        (fun _ => Except.ok [1]) "/s" =
      (0, ["Download completed successfully!", "File saved to: /s/downloaded-abc.bin"]) ∧
    (cliMain (some "download") (some "abc") (fun _ => Except.ok "abc")
        (fun _ => Except.error "e") "/s").1 = 1 ∧
    (cliMain (some "frobnicate") (some "abc") (fun _ => Except.ok "abc")
        (fun _ => Except.ok [1]) "/s").1 = 1 ∧
    (cliMain (some "upload") none (fun _ => Except.ok "abc")
        (fun _ => Except.ok [1]) "/s").1 = 1 := by
  refine ⟨?_, ?_, ?_, ?_, ?_, ?_⟩
  · exact (claim_C9_cli_dispatch (some "upload") (some "f.bin") (fun _ => Except.ok "abc")
      (fun _ => Except.ok [1]) "/s").1 "f.bin" "abc" rfl rfl (by decide) rfl
  · exact (claim_C9_cli_dispatch (some "upload") (some "f.bin") (fun _ => Except.error "e")
      (fun _ => Except.ok [1]) "/s").2.1 "f.bin" "e" rfl rfl (by decide) rfl
  · exact (claim_C9_cli_dispatch (some "download") (some "abc") (fun _ => Except.ok "abc")
      (fun _ => Except.ok [1]) "/s").2.2.1 "abc" [1] rfl rfl (by decide) rfl
  · exact (claim_C9_cli_dispatch (some "download") (some "abc") (fun _ => Except.ok "abc")
      (fun _ => Except.error "e") "/s").2.2.2.1 "abc" "e" rfl rfl (by decide) rfl
  · exact (claim_C9_cli_dispatch (some "frobnicate") (some "abc") (fun _ => Except.ok "abc")
      (fun _ => Except.ok [1]) "/s").2.2.2.2.1 (by decide) (by decide)
  · exact (claim_C9_cli_dispatch (some "upload") none (fun _ => Except.ok "abc")
      (fun _ => Except.ok [1]) "/s").2.2.2.2.2 (Or.inl rfl)

/-- Claim C10: the read-only ContractService queries `getActiveItems`,
`getUserItems`, `getUserRentals`, `hasActiveRental`, `getTotalItems`
and `getTotalRentals` never propagate an underlying contract/RPC error
— they are total functions into their plain result types — and on any
failing call they return the neutral default (empty list, `false`, or
`0`), indistinguishable from the result of a successful call against
genuinely empty on-chain state. -/
theorem claim_C10_contract_queries_swallow_errors (e : String) :
    ContractService.getActiveItems (Except.error e) = [] ∧
    ContractService.getUserItems (Except.error e) = [] ∧
    ContractService.getUserRentals (Except.error e) = [] ∧
    ContractService.hasActiveRental (Except.error e) = false ∧
    ContractService.getTotalItems (Except.error e) = 0 ∧
    ContractService.getTotalRentals (Except.error e) = 0 ∧
    ContractService.getActiveItems (Except.error e) =
      ContractService.getActiveItems (Except.ok []) ∧
    ContractService.getUserItems (Except.error e) =
      ContractService.getUserItems (Except.ok []) ∧
    ContractService.getUserRentals (Except.error e) =
      ContractService.getUserRentals (Except.ok []) ∧
    ContractService.hasActiveRental (Except.error e) =
      ContractService.hasActiveRental (Except.ok false) ∧
    ContractService.getTotalItems (Except.error e) =
      ContractService.getTotalItems (Except.ok 0) ∧
    ContractService.getTotalRentals (Except.error e) =
      ContractService.getTotalRentals (Except.ok 0) := by
  simp [ContractService.getActiveItems, ContractService.getUserItems,
    ContractService.getUserRentals, ContractService.hasActiveRental,
    ContractService.getTotalItems, ContractService.getTotalRentals]
